import Mathlib

/-!
Shallow embedding of `src/source.py`: a document-retrieval-augmented
multi-agent analysis pipeline built as glue over LlamaIndex (document
loading, chunking, vector indexing, query engine), Groq (LLM inference)
and CrewAI (agents, tasks, sequential crew execution).

The repository code is orchestration: it loads documents from four kinds
of sources, builds and persists a vector index, wraps the index's query
engine in a tool, equips three role-specialized agents with that tool,
runs three tasks sequentially and saves the textual result.  The external
libraries' behaviour (how a PDF parses, how chunks embed, what an LLM
answers) is modelled as an environment `Env` of uninterpreted functions;
the repository's own logic — state updates of the builder, configuration
records passed to the libraries, control flow and the order of effects —
is translated directly and is what the theorems are about.  Observable
effects (reads of external resources, the persist call, the global
query-engine assignment, crew execution, the final print and file write)
are recorded as an explicit event trace.
-/

/-- A LlamaIndex `Document`: text plus metadata (modelled as key/value
pairs, as produced e.g. by `load_text_files` with a `source` key). -/
structure Document where
  text : String
  metadata : List (String × String)
deriving DecidableEq, Repr

/-- A chunk node produced by the node parser from documents. -/
structure Node where
  text : String
deriving DecidableEq, Repr

/-- Configuration record built by `SimpleNodeParser.from_defaults`: which
chunking parameters the caller passed explicitly.  `none` means the
caller did not pass the parameter and the library's own default value
applies. -/
structure SimpleNodeParserConfig where
  chunk_size : Option Nat
  chunk_overlap : Option Nat
deriving DecidableEq, Repr

/-- Model of `SimpleNodeParser.from_defaults(chunk_size, chunk_overlap)`:
records the explicitly supplied chunking parameters. -/
def SimpleNodeParser.from_defaults (chunk_size : Option Nat)
    (chunk_overlap : Option Nat) : SimpleNodeParserConfig :=
  { chunk_size := chunk_size, chunk_overlap := chunk_overlap }

/-- The node parser configuration the spec describes: a parser configured
with only the library's default chunking parameters, i.e. with no
explicitly passed `chunk_size` or `chunk_overlap`. -/
def default_chunking_config : SimpleNodeParserConfig :=
  SimpleNodeParser.from_defaults none none

/-- The node parser configuration `build_index` actually constructs:
`SimpleNodeParser.from_defaults(chunk_size=512, chunk_overlap=50)`. -/
def build_index_chunking_config : SimpleNodeParserConfig :=
  SimpleNodeParser.from_defaults (some 512) (some 50)

/-- A `VectorStoreIndex` over a list of nodes.  Embedding and similarity
search live in the library; the index is identified by the nodes it was
built from. -/
structure VectorStoreIndex where
  nodes : List Node
deriving DecidableEq, Repr

/-- A query engine returned by `index.as_query_engine(...)`: the index it
queries and the configuration the repository passes. -/
structure QueryEngine where
  index : VectorStoreIndex
  similarity_top_k : Nat
  response_mode : String
deriving DecidableEq, Repr

/-- A response object returned by `query_engine.query(...)`. -/
structure Response where
  text : String
deriving DecidableEq, Repr

/-- The object returned by `crew.kickoff()`. -/
structure CrewOutput where
  raw : String
deriving DecidableEq, Repr

/-- Reference to a CrewAI tool placed in an agent's `tools` list.  The
repository defines exactly one tool, the decorated
`search_knowledge_base` function. -/
inductive ToolRef where
  | search_knowledge_base
deriving DecidableEq, Repr

/-- The display name the `@tool` decorator gives `search_knowledge_base`. -/
def SEARCH_TOOL_NAME : String := "Knowledge Base Search"

/-- A `ChatGroq` LLM handle as configured by `AnalysisCrewBuilder`. -/
structure ChatGroq where
  model : String
  api_key : Option String
  temperature : ℚ
deriving DecidableEq, Repr

/-- A CrewAI `Agent` with the keyword arguments the repository passes. -/
structure Agent where
  role : String
  goal : String
  backstory : String
  tools : List ToolRef
  llm : ChatGroq
  verbose : Bool
deriving DecidableEq, Repr

/-- A CrewAI `CrewTask`: description, assigned agent, expected output and the
earlier tasks supplied as context (empty when the `context` keyword is
not passed). -/
inductive CrewTask where
  | mk (description : String) (agent : Agent) (expected_output : String)
      (context : List CrewTask)

/-- Description field of a task. -/
def CrewTask.description : CrewTask → String
  | .mk d _ _ _ => d

/-- Agent a task is assigned to. -/
def CrewTask.agent : CrewTask → Agent
  | .mk _ a _ _ => a

/-- Expected output of a task. -/
def CrewTask.expected_output : CrewTask → String
  | .mk _ _ e _ => e

/-- Context tasks whose outputs feed this task. -/
def CrewTask.context : CrewTask → List CrewTask
  | .mk _ _ _ c => c

/-- CrewAI process kind. -/
inductive Process where
  | sequential
  | hierarchical
deriving DecidableEq, Repr

/-- A CrewAI `Crew` with the keyword arguments the repository passes. -/
structure Crew where
  agents : List Agent
  tasks : List CrewTask
  process : Process
  verbose : Bool

/-- Observable effects of the pipeline, in the order they happen. -/
inductive Event where
  | readPdf (path : String)
  | readDocx (path : String)
  | readTextFile (path : String)
  | fetchWeb (urls : List String)
  | persistIndex (dir : String) (index : VectorStoreIndex)
  | loadIndexFromStorage (dir : String)
  | setGlobalQueryEngine (engine : QueryEngine)
  | crewCreated (crew : Crew)
  | crewKickoff (crew : Crew)
  | printResult (result : CrewOutput)
  | writeFile (name : String) (contents : String)

/-- The external libraries and operating system, as uninterpreted
functions: what each PDF/DOCX/web/text source yields, how the node parser
chunks documents, what a query answers, what the crew produces, and how
library objects convert to strings. -/
structure Env where
  pdf_load_data : String → List Document
  docx_load_data : String → List Document
  read_file : String → String
  web_load_data : List String → List Document
  get_nodes_from_documents : SimpleNodeParserConfig → List Document → List Node
  load_index_from_storage : String → VectorStoreIndex
  query : QueryEngine → String → Response
  str_of_response : Response → String
  kickoff : Crew → CrewOutput
  str_of_output : CrewOutput → String
  getenv : String → Option String

/-- State of a `KnowledgeBaseBuilder`: the accumulated documents and the
optional index.  (The reader objects created in `__init__` are stateless
handles into the library and live in `Env`.) -/
structure KnowledgeBaseBuilder where
  documents : List Document
  index : Option VectorStoreIndex
deriving Repr

/-- Global LlamaIndex `Settings` values assigned in
`KnowledgeBaseBuilder.__init__`. -/
structure LlamaSettings where
  embed_model : String
  llm_model : String
  llm_api_key : Option String
deriving DecidableEq, Repr

/-- `KnowledgeBaseBuilder(groq_api_key)`: configures the global settings
and starts with no documents and no index. -/
def KnowledgeBaseBuilder.init (groq_api_key : Option String) :
    KnowledgeBaseBuilder × LlamaSettings :=
  ({ documents := [], index := none },
   { embed_model := "BAAI/bge-small-en-v1.5",
     llm_model := "llama-3.3-70b-versatile",
     llm_api_key := groq_api_key })

/-- `load_pdfs`: for each path, parse it with the PDF reader and extend
`self.documents` with the resulting documents. -/
def load_pdfs (env : Env) (self : KnowledgeBaseBuilder)
    (pdf_paths : List String) : KnowledgeBaseBuilder × List Event :=
  (pdf_paths.foldl
    (fun s path => { s with documents := s.documents ++ env.pdf_load_data path })
    self,
   pdf_paths.map Event.readPdf)

/-- `load_docx`: for each path, parse it with the DOCX reader and extend
`self.documents` with the resulting documents. -/
def load_docx (env : Env) (self : KnowledgeBaseBuilder)
    (docx_paths : List String) : KnowledgeBaseBuilder × List Event :=
  (docx_paths.foldl
    (fun s path => { s with documents := s.documents ++ env.docx_load_data path })
    self,
   docx_paths.map Event.readDocx)

/-- `load_text_files`: for each path, read the file and append one
`Document` whose text is the file content and whose metadata records the
source path. -/
def load_text_files (env : Env) (self : KnowledgeBaseBuilder)
    (txt_paths : List String) : KnowledgeBaseBuilder × List Event :=
  (txt_paths.foldl
    (fun s path =>
      { s with documents :=
          s.documents ++ [Document.mk (env.read_file path) [("source", path)]] })
    self,
   txt_paths.map Event.readTextFile)

/-- `add_web_content`: fetch all urls with `SimpleWebPageReader` in one
call and extend `self.documents` with the resulting documents. -/
def add_web_content (env : Env) (self : KnowledgeBaseBuilder)
    (urls : List String) : KnowledgeBaseBuilder × List Event :=
  ({ self with documents := self.documents ++ env.web_load_data urls },
   [Event.fetchWeb urls])

/-- Result of `build_index` / `load_index`: updated builder state, the
returned index, and the observable effects. -/
structure BuildIndexResult where
  self : KnowledgeBaseBuilder
  ret : VectorStoreIndex
  events : List Event

/-- The default value of `build_index`'s `persist_dir` parameter. -/
def DEFAULT_PERSIST_DIR : String := "./storage"

/-- `build_index(persist_dir)`: chunk all loaded documents into nodes
with a `SimpleNodeParser.from_defaults(chunk_size=512, chunk_overlap=50)`
parser, build a `VectorStoreIndex` over the nodes, persist it to
`persist_dir`, store it in `self.index` and return it. -/
def build_index (env : Env) (self : KnowledgeBaseBuilder)
    (persist_dir : String) : BuildIndexResult :=
  let nodes := env.get_nodes_from_documents build_index_chunking_config self.documents
  let idx := VectorStoreIndex.mk nodes
  { self := { self with index := some idx },
    ret := idx,
    events := [Event.persistIndex persist_dir idx] }

/-- `load_index(persist_dir)`: load an existing index from storage, store
it in `self.index` and return it. -/
def load_index (env : Env) (self : KnowledgeBaseBuilder)
    (persist_dir : String) : BuildIndexResult :=
  let idx := env.load_index_from_storage persist_dir
  { self := { self with index := some idx },
    ret := idx,
    events := [Event.loadIndexFromStorage persist_dir] }

/-- The default value of `get_query_engine`'s `similarity_top_k`
parameter. -/
def DEFAULT_SIMILARITY_TOP_K : Nat := 5

/-- `get_query_engine(similarity_top_k)`: raise `ValueError` when no
index has been built or loaded, otherwise return
`index.as_query_engine(similarity_top_k=..., response_mode="compact")`.
The method reads `self.index` only and mutates nothing, which the pure
translation makes literal. -/
def get_query_engine (self : KnowledgeBaseBuilder)
    (similarity_top_k : Nat) : Except String QueryEngine :=
  match self.index with
  | none => Except.error "Index not built. Call build_index() first."
  | some idx =>
      Except.ok { index := idx, similarity_top_k := similarity_top_k,
                  response_mode := "compact" }

/-- The `search_knowledge_base` tool body: with no initialized global
query engine it returns an error string instead of querying; otherwise it
returns `str(query_engine.query(query))`. -/
def search_knowledge_base (env : Env) (query_engine : Option QueryEngine)
    (query : String) : String :=
  match query_engine with
  | none => "Error: Knowledge base not initialized"
  | some engine => env.str_of_response (env.query engine query)

/-- State of an `AnalysisCrewBuilder`: the configured `ChatGroq` LLM. -/
structure AnalysisCrewBuilder where
  llm : ChatGroq

/-- `AnalysisCrewBuilder(groq_api_key)`. -/
def AnalysisCrewBuilder.init (groq_api_key : Option String) : AnalysisCrewBuilder :=
  { llm := { model := "llama-3.3-70b-versatile", api_key := groq_api_key,
             temperature := 7/10 } }

/-- `create_research_agent`. -/
def AnalysisCrewBuilder.create_research_agent (self : AnalysisCrewBuilder) : Agent :=
  { role := "Research Analyst",
    goal := "Extract and synthesize relevant information from the knowledge base",
    backstory := "You are an expert research analyst with deep experience in information retrieval and synthesis. You excel at finding relevant information and presenting it clearly.",
    tools := [ToolRef.search_knowledge_base],
    llm := self.llm,
    verbose := true }

/-- `create_data_analyst_agent`. -/
def AnalysisCrewBuilder.create_data_analyst_agent (self : AnalysisCrewBuilder) : Agent :=
  { role := "Data Analyst",
    goal := "Analyze data and identify patterns, trends, and insights",
    backstory := "You are a skilled data analyst who can interpret complex information and extract meaningful insights. You use the knowledge base to support your analysis.",
    tools := [ToolRef.search_knowledge_base],
    llm := self.llm,
    verbose := true }

/-- `create_report_writer_agent`. -/
def AnalysisCrewBuilder.create_report_writer_agent (self : AnalysisCrewBuilder) : Agent :=
  { role := "Report Writer",
    goal := "Create clear, comprehensive reports based on research and analysis",
    backstory := "You are an expert technical writer who creates well-structured, insightful reports. You synthesize information from multiple sources into coherent narratives.",
    tools := [ToolRef.search_knowledge_base],
    llm := self.llm,
    verbose := true }

/-- The research task of `create_analysis_crew`: no `context` keyword is
passed, so its context is empty. -/
def AnalysisCrewBuilder.research_task (self : AnalysisCrewBuilder)
    (research_topic : String) : CrewTask :=
  CrewTask.mk
    ("Research the following topic using the knowledge base:\n" ++ research_topic
      ++ "\nFind all relevant information, key facts, and important details.")
    self.create_research_agent
    "Comprehensive research findings with key information"
    []

/-- The analysis task of `create_analysis_crew`, with the research task
as context. -/
def AnalysisCrewBuilder.analysis_task (self : AnalysisCrewBuilder)
    (research_topic : String) : CrewTask :=
  CrewTask.mk
    "Analyze the research findings to identify:\n- Key patterns and trends\n- Important insights\n- Potential implications\n- Areas requiring attention\nUse the knowledge base to support your analysis."
    self.create_data_analyst_agent
    "Detailed analysis with insights and patterns"
    [self.research_task research_topic]

/-- The report task of `create_analysis_crew`, with the research and
analysis tasks as context. -/
def AnalysisCrewBuilder.report_task (self : AnalysisCrewBuilder)
    (research_topic : String) : CrewTask :=
  CrewTask.mk
    "Create a comprehensive report that includes:\n1. Executive Summary\n2. Key Findings\n3. Detailed Analysis\n4. Conclusions and Recommendations\nThe report should be well-structured and professional."
    self.create_report_writer_agent
    "Professional report with all sections"
    [self.research_task research_topic, self.analysis_task research_topic]

/-- `create_analysis_crew(research_topic)`: three agents, three tasks,
sequential process. -/
def AnalysisCrewBuilder.create_analysis_crew (self : AnalysisCrewBuilder)
    (research_topic : String) : Crew :=
  { agents := [self.create_research_agent, self.create_data_analyst_agent,
               self.create_report_writer_agent],
    tasks := [self.research_task research_topic,
              self.analysis_task research_topic,
              self.report_task research_topic],
    process := Process.sequential,
    verbose := true }

/-- The research topic hard-coded in `main_workflow` (whitespace normalized). -/
def MAIN_RESEARCH_TOPIC : String :=
  "Analyze the key trends and patterns in the documents related to [YOUR SPECIFIC TOPIC]. Identify the main themes, important findings, and provide strategic recommendations."

/-- Final state of `main_workflow`: builder, the global query engine set for the
CrewAI tools, the crew, the kickoff result, the files written (name and
content) and the event trace. -/
structure MainResult where
  kb : KnowledgeBaseBuilder
  global_query_engine : Option QueryEngine
  crew : Crew
  result : CrewOutput
  saved : List (String × String)
  trace : List Event

/-- `main_workflow()`: build the knowledge base from all four source kinds, build
and persist the index, set the global query engine, create and run the
crew, print the result and save `str(result)` to `analysis_report.md`.
An uncaught `ValueError` from `get_query_engine` propagates as
`Except.error`. -/
def main_workflow (env : Env) : Except String MainResult :=
  let kb0 := (KnowledgeBaseBuilder.init (env.getenv "GROQ_API_KEY")).1
  let s1 := load_pdfs env kb0 ["./data/report1.pdf", "./data/analysis.pdf"]
  let s2 := load_docx env s1.1 ["./data/document1.docx"]
  let s3 := load_text_files env s2.1 ["./data/notes.txt", "./data/summary.txt"]
  let s4 := add_web_content env s3.1
    ["https://example.com/article1", "https://example.com/article2"]
  let b := build_index env s4.1 "./storage"
  match get_query_engine b.self 5 with
  | Except.error e => Except.error e
  | Except.ok qe =>
      let crew_builder := AnalysisCrewBuilder.init (env.getenv "GROQ_API_KEY")
      let crew := crew_builder.create_analysis_crew MAIN_RESEARCH_TOPIC
      let result := env.kickoff crew
      Except.ok
        { kb := b.self,
          global_query_engine := some qe,
          crew := crew,
          result := result,
          saved := [("analysis_report.md", env.str_of_output result)],
          trace := s1.2 ++ s2.2 ++ s3.2 ++ s4.2 ++ b.events
            ++ [Event.setGlobalQueryEngine qe, Event.crewCreated crew,
                Event.crewKickoff crew, Event.printResult result,
                Event.writeFile "analysis_report.md" (env.str_of_output result)] }

/-- The extend-in-a-loop pattern shared by the three file loaders:
folding `documents := documents ++ f path` over a path list appends the
concatenation of the per-path results and touches no other field. -/
theorem foldl_extend_documents (f : String → List Document) (paths : List String)
    (kb : KnowledgeBaseBuilder) :
    paths.foldl (fun s path => { s with documents := s.documents ++ f path }) kb
      = { kb with documents := kb.documents ++ paths.flatMap f } := by
  induction paths generalizing kb with
  | nil => simp
  | cons p ps ih => simp [List.foldl_cons, ih, List.flatMap_cons, List.append_assoc]

/-- C1: every list of paths or urls handed to `load_pdfs`, `load_docx`,
`load_text_files` or `add_web_content` is parsed with the corresponding
reader (PDF reader per path, DOCX reader per path, a file read wrapped in
a `Document` per path, one web fetch for all urls) and the resulting
documents are appended to the builder's document collection. -/
theorem loaders_ingest_all_source_kinds (env : Env) (kb : KnowledgeBaseBuilder)
    (pdf_paths docx_paths txt_paths urls : List String) :
    (load_pdfs env kb pdf_paths).1.documents
        = kb.documents ++ pdf_paths.flatMap env.pdf_load_data ∧
    (load_docx env kb docx_paths).1.documents
        = kb.documents ++ docx_paths.flatMap env.docx_load_data ∧
    (load_text_files env kb txt_paths).1.documents
        = kb.documents ++ txt_paths.flatMap
            (fun path => [Document.mk (env.read_file path) [("source", path)]]) ∧
    (add_web_content env kb urls).1.documents
        = kb.documents ++ env.web_load_data urls := by
  refine ⟨?_, ?_, ?_, rfl⟩ <;>
    simp [load_pdfs, load_docx, load_text_files, foldl_extend_documents]

/-- C10: every loading operation only appends to the document collection
(the previous documents are an unchanged prefix, witnessed by the
appended suffix) and leaves `self.index` untouched. -/
theorem loaders_only_append (env : Env) (kb : KnowledgeBaseBuilder)
    (pdf_paths docx_paths txt_paths urls : List String) :
    ((∃ t, (load_pdfs env kb pdf_paths).1.documents = kb.documents ++ t) ∧
      (load_pdfs env kb pdf_paths).1.index = kb.index) ∧
    ((∃ t, (load_docx env kb docx_paths).1.documents = kb.documents ++ t) ∧
      (load_docx env kb docx_paths).1.index = kb.index) ∧
    ((∃ t, (load_text_files env kb txt_paths).1.documents = kb.documents ++ t) ∧
      (load_text_files env kb txt_paths).1.index = kb.index) ∧
    ((∃ t, (add_web_content env kb urls).1.documents = kb.documents ++ t) ∧
      (add_web_content env kb urls).1.index = kb.index) := by
  refine ⟨⟨⟨pdf_paths.flatMap env.pdf_load_data, ?_⟩, ?_⟩,
      ⟨⟨docx_paths.flatMap env.docx_load_data, ?_⟩, ?_⟩,
      ⟨⟨txt_paths.flatMap
          (fun path => [Document.mk (env.read_file path) [("source", path)]]), ?_⟩, ?_⟩,
      ⟨⟨env.web_load_data urls, rfl⟩, rfl⟩⟩ <;>
    simp [load_pdfs, load_docx, load_text_files, foldl_extend_documents]

/-- C9: with an uninitialized global query engine,
`search_knowledge_base` returns the fixed error string instead of
querying; the total translation shows no exception is raised. -/
theorem search_knowledge_base_uninitialized (env : Env) (query : String) :
    search_knowledge_base env none query = "Error: Knowledge base not initialized" :=
  rfl

/-- C8: `get_query_engine` raises `ValueError` exactly when no index is
present, and otherwise returns an engine over the stored index with the
given `similarity_top_k` (whose Python default is 5); the pure
translation takes the builder only as input, so documents and index are
unchanged by construction. -/
theorem get_query_engine_spec (kb : KnowledgeBaseBuilder) (k : Nat) :
    (kb.index = none →
      get_query_engine kb k = Except.error "Index not built. Call build_index() first.") ∧
    (∀ idx, kb.index = some idx →
      get_query_engine kb k
        = Except.ok { index := idx, similarity_top_k := k, response_mode := "compact" }) ∧
    ((∃ e, get_query_engine kb k = Except.error e) ↔ kb.index = none) ∧
    DEFAULT_SIMILARITY_TOP_K = 5 := by
  refine ⟨fun h => by simp [get_query_engine, h], fun idx h => by simp [get_query_engine, h],
    ?_, rfl⟩
  cases h : kb.index <;> simp [get_query_engine, h]

/-- Witness for C8 at concrete builders: no index yields the error,
an index of no nodes yields an engine over it. -/
theorem get_query_engine_spec_witness :
    get_query_engine { documents := [], index := none } 5
        = Except.error "Index not built. Call build_index() first." ∧
    get_query_engine { documents := [], index := some (VectorStoreIndex.mk []) } 3
        = Except.ok { index := VectorStoreIndex.mk [], similarity_top_k := 3,
                      response_mode := "compact" } :=
  ⟨(get_query_engine_spec { documents := [], index := none } 5).1 rfl,
   (get_query_engine_spec { documents := [], index := some (VectorStoreIndex.mk []) } 3).2.1
     (VectorStoreIndex.mk []) rfl⟩

/-- A concrete environment whose node parser output depends on the
chunking configuration it receives, so that chunking parameters are
observable in the built index. -/
def chunkProbeEnv : Env :=
  { pdf_load_data := fun _ => [],
    docx_load_data := fun _ => [],
    read_file := fun _ => "",
    web_load_data := fun _ => [],
    get_nodes_from_documents := fun cfg _ =>
      if cfg = default_chunking_config then [Node.mk "default-chunking"]
      else [Node.mk "explicit-chunking"],
    load_index_from_storage := fun _ => VectorStoreIndex.mk [],
    query := fun _ q => Response.mk q,
    str_of_response := Response.text,
    kickoff := fun _ => CrewOutput.mk "",
    str_of_output := CrewOutput.raw,
    getenv := fun _ => none }

/-- C2 counterexample: on an empty builder under `chunkProbeEnv`,
`build_index` does not produce the index a node parser configured with
only the library's default chunking parameters would produce, because it
configures the parser with explicit `chunk_size=512, chunk_overlap=50`;
the configuration it uses differs from the all-defaults one. -/
theorem build_index_not_default_chunking :
    (build_index chunkProbeEnv { documents := [], index := none } "./storage").ret
        ≠ VectorStoreIndex.mk
            (chunkProbeEnv.get_nodes_from_documents default_chunking_config []) ∧
    build_index_chunking_config ≠ default_chunking_config := by
  constructor <;> decide

/-- C2 amended: when `build_index` splits the loaded documents into
nodes, the node parser is configured with explicitly passed
`chunk_size=512` and `chunk_overlap=50` — not with only the library's
default chunking parameters — and no further chunking customization is
applied. -/
theorem build_index_chunking_configuration (env : Env) (kb : KnowledgeBaseBuilder)
    (persist_dir : String) :
    (build_index env kb persist_dir).ret
        = VectorStoreIndex.mk
            (env.get_nodes_from_documents build_index_chunking_config kb.documents) ∧
    build_index_chunking_config = SimpleNodeParser.from_defaults (some 512) (some 50) ∧
    build_index_chunking_config ≠ SimpleNodeParser.from_defaults none none :=
  ⟨rfl, rfl, by decide⟩

/-- C3: `build_index` chunks all documents loaded so far into nodes,
builds the vector index over them, persists it to the given directory
(whose Python default is `"./storage"`), stores it in `self.index`,
returns it, and leaves the document collection unchanged. -/
theorem build_index_spec (env : Env) (kb : KnowledgeBaseBuilder) (persist_dir : String) :
    (build_index env kb persist_dir).ret
        = VectorStoreIndex.mk
            (env.get_nodes_from_documents build_index_chunking_config kb.documents) ∧
    (build_index env kb persist_dir).self.index
        = some ((build_index env kb persist_dir).ret) ∧
    (build_index env kb persist_dir).self.documents = kb.documents ∧
    (build_index env kb persist_dir).events
        = [Event.persistIndex persist_dir ((build_index env kb persist_dir).ret)] ∧
    DEFAULT_PERSIST_DIR = "./storage" :=
  ⟨rfl, rfl, rfl, rfl, rfl⟩

/-- C7: with an initialized global query engine, `search_knowledge_base`
returns the string form of the response the engine gives to the query;
and the engine obtained from a builder whose index `build_index` produced
is grounded in that index over the builder's document collection. -/
theorem search_knowledge_base_queries_index (env : Env) (engine : QueryEngine)
    (query : String) :
    search_knowledge_base env (some engine) query
        = env.str_of_response (env.query engine query) ∧
    (∀ kb persist_dir k,
      get_query_engine (build_index env kb persist_dir).self k
        = Except.ok
            { index := VectorStoreIndex.mk
                (env.get_nodes_from_documents build_index_chunking_config kb.documents),
              similarity_top_k := k, response_mode := "compact" }) :=
  ⟨rfl, fun _ _ _ => rfl⟩

/-- C4: the crew consists of exactly the three role-specialized agents
and the three tasks run as a sequential process in the order research,
analysis, report, with the analysis task receiving the research task as
context and the report task receiving both earlier tasks as context. -/
theorem create_analysis_crew_spec (b : AnalysisCrewBuilder) (topic : String) :
    (b.create_analysis_crew topic).agents
        = [b.create_research_agent, b.create_data_analyst_agent,
           b.create_report_writer_agent] ∧
    (b.create_analysis_crew topic).agents.map Agent.role
        = ["Research Analyst", "Data Analyst", "Report Writer"] ∧
    (b.create_analysis_crew topic).tasks
        = [b.research_task topic, b.analysis_task topic, b.report_task topic] ∧
    (b.create_analysis_crew topic).process = Process.sequential ∧
    (b.research_task topic).context = [] ∧
    (b.analysis_task topic).context = [b.research_task topic] ∧
    (b.report_task topic).context = [b.research_task topic, b.analysis_task topic] :=
  ⟨rfl, rfl, rfl, rfl, rfl, rfl, rfl⟩

/-- C5: each of the three agents carries the `search_knowledge_base`
tool in its tools list, and hence so does every agent of the crew. -/
theorem every_agent_has_search_tool (b : AnalysisCrewBuilder) (topic : String) :
    ToolRef.search_knowledge_base ∈ b.create_research_agent.tools ∧
    ToolRef.search_knowledge_base ∈ b.create_data_analyst_agent.tools ∧
    ToolRef.search_knowledge_base ∈ b.create_report_writer_agent.tools ∧
    (b.create_analysis_crew topic).agents.all
        (fun a => a.tools.contains ToolRef.search_knowledge_base) = true :=
  ⟨List.Mem.head _, List.Mem.head _, List.Mem.head _, rfl⟩

/-- C6: `main_workflow` loads the files from all sources, then builds
the index over everything loaded, then persists it, then sets the global
query engine, then creates the crew (the three agent roles), then runs
it, then prints the result and writes the string form of that same
result to `analysis_report.md` — in exactly this order, as the event
trace records; the saved file content is `str(result)` for the printed
result. -/
theorem main_workflow_step_order (env : Env) :
    let docs :=
      ((((env.pdf_load_data "./data/report1.pdf"
            ++ env.pdf_load_data "./data/analysis.pdf")
          ++ env.docx_load_data "./data/document1.docx")
          ++ [Document.mk (env.read_file "./data/notes.txt")
                [("source", "./data/notes.txt")]])
          ++ [Document.mk (env.read_file "./data/summary.txt")
                [("source", "./data/summary.txt")]])
        ++ env.web_load_data ["https://example.com/article1",
                              "https://example.com/article2"]
    let idx := VectorStoreIndex.mk
      (env.get_nodes_from_documents build_index_chunking_config docs)
    let qe : QueryEngine :=
      { index := idx, similarity_top_k := 5, response_mode := "compact" }
    let crew := (AnalysisCrewBuilder.init
      (env.getenv "GROQ_API_KEY")).create_analysis_crew MAIN_RESEARCH_TOPIC
    let result := env.kickoff crew
    main_workflow env = Except.ok
      { kb := { documents := docs, index := some idx },
        global_query_engine := some qe,
        crew := crew,
        result := result,
        saved := [("analysis_report.md", env.str_of_output result)],
        trace :=
          [Event.readPdf "./data/report1.pdf", Event.readPdf "./data/analysis.pdf",
           Event.readDocx "./data/document1.docx",
           Event.readTextFile "./data/notes.txt",
           Event.readTextFile "./data/summary.txt",
           Event.fetchWeb ["https://example.com/article1",
                           "https://example.com/article2"],
           Event.persistIndex "./storage" idx,
           Event.setGlobalQueryEngine qe,
           Event.crewCreated crew,
           Event.crewKickoff crew,
           Event.printResult result,
           Event.writeFile "analysis_report.md" (env.str_of_output result)] } :=
  rfl
